import Mathlib

/-!
Verification of `src/mist/io/helpers.py` (mist.io helper module).

The Python module is shallowly embedded: each helper becomes a pure Lean
function.  External collaborators (libcloud drivers, the fabric SSH layer,
the yaml library, the filesystem) are modelled as explicit parameters or
oracle values supplied to the embedded functions, and the side effects the
code performs (SSH calls, machine tagging, temp-file creation/removal) are
returned as an explicit trace.
-/

namespace MistIO

/-- Provider enum, after `libcloud.compute.types.Provider` as used by
`helpers.py`.  EC2 regional variants are listed individually because
`connect` and `get_machine_actions` distinguish them via `EC2_PROVIDERS`.
`unregistered` stands for a provider enum value that has no driver
registered in libcloud's driver factory. -/
inductive Provider
  | ec2
  | ec2_eu_west
  | ec2_us_east
  | ec2_us_west
  | ec2_ap_southeast
  | rackspace
  | rackspace_first_gen
  | linode
  | openstack
  | unregistered
deriving DecidableEq, Repr

/-- Machine state enum, after `libcloud.compute.types.NodeState`. -/
inductive NodeState
  | running
  | rebooting
  | terminated
  | pending
  | unknown
deriving DecidableEq, Repr

/-- Modelled from the spec: `EC2_PROVIDERS` is imported from
`mist/io/config.py`, which is not among the provided sources.  Per spec
sections 4.2 and 4.2b and the glossary it holds EC2 and all EC2 regional
variants. -/
def EC2_PROVIDERS : List Provider :=
  [.ec2, .ec2_eu_west, .ec2_us_east, .ec2_us_west, .ec2_ap_southeast]

/-- The capability flags returned by `get_machine_actions`
(`helpers.py` lines 171-175). -/
structure CapabilitySet where
  can_stop : Bool
  can_start : Bool
  can_destroy : Bool
  can_reboot : Bool
  can_tag : Bool
deriving DecidableEq, Repr

/-- Embedding of `get_machine_actions(machine, backend)`
(`helpers.py` lines 130-175).  The Python function only reads
`machine.state` and `backend.type`, which are taken here as the two
arguments.  The sequence of mutable-variable updates is rendered as a
chain of `let` rebindings in source order. -/
def get_machine_actions (state : NodeState) (backendType : Provider) :
    CapabilitySet :=
  -- defaults for running state
  let can_start := false
  let can_stop := false
  let can_destroy := true
  let can_reboot := true
  let can_tag := true
  let can_stop := if EC2_PROVIDERS.contains backendType then true else can_stop
  let can_tag :=
    if backendType = .rackspace_first_gen ∨ backendType = .linode then false
    else can_tag
  -- for other states
  if state = .rebooting ∨ state = .pending then
    { can_stop := false, can_start := false, can_destroy := can_destroy,
      can_reboot := false, can_tag := can_tag }
  else if state = .unknown ∧ EC2_PROVIDERS.contains backendType then
    -- unknown state in EC2 is assumed to mean stopped
    { can_stop := false, can_start := true, can_destroy := can_destroy,
      can_reboot := false, can_tag := can_tag }
  else if state = .terminated ∨ state = .unknown then
    { can_stop := false, can_start := false, can_destroy := false,
      can_reboot := false, can_tag := false }
  else
    { can_stop := can_stop, can_start := can_start, can_destroy := can_destroy,
      can_reboot := can_reboot, can_tag := can_tag }

/-- The rule table of spec section 4.2b, written independently of the
embedding above: the running-state baseline followed by the five
overrides in the order the spec lists them (later overrides win). -/
def capabilityRuleTable (state : NodeState) (backendType : Provider) :
    CapabilitySet :=
  let base : CapabilitySet :=
    { can_start := false, can_stop := false, can_destroy := true,
      can_reboot := true, can_tag := true }
  let afterRule1 :=
    if EC2_PROVIDERS.contains backendType then { base with can_stop := true }
    else base
  let afterRule2 :=
    if backendType = .rackspace_first_gen ∨ backendType = .linode then
      { afterRule1 with can_tag := false }
    else afterRule1
  if state = .rebooting ∨ state = .pending then
    { afterRule2 with can_start := false, can_stop := false,
                      can_reboot := false }
  else if state = .unknown ∧ EC2_PROVIDERS.contains backendType then
    { afterRule2 with can_stop := false, can_start := true,
                      can_reboot := false }
  else if state = .terminated ∨ state = .unknown then
    { afterRule2 with can_start := false, can_destroy := false,
                      can_stop := false, can_reboot := false,
                      can_tag := false }
  else afterRule2

/-- Helper for `pySplit`: walk the character list, accumulating the
current word (reversed) and emitting it at each whitespace run. -/
def pySplitAux : List Char → List Char → List String
  | [], acc => if acc.isEmpty then [] else [String.mk acc.reverse]
  | c :: rest, acc =>
    if c.isWhitespace then
      if acc.isEmpty then pySplitAux rest []
      else String.mk acc.reverse :: pySplitAux rest []
    else pySplitAux rest (c :: acc)

/-- Python `str.split()` with no arguments: split on runs of whitespace,
discarding empty pieces. -/
def pySplit (s : String) : List String :=
  pySplitAux s.toList []

/-- Python `str.strip(c)` for a single strip character: remove that
character from both ends. -/
def pyStrip (s : String) (c : Char) : String :=
  let l := s.toList.dropWhile (fun x => x = c)
  String.mk ((l.reverse.dropWhile (fun x => x = c)).reverse)

/-- Python substring test `pat in s`. -/
def strContains (s pat : String) : Bool :=
  let sl := s.toList
  let pl := pat.toList
  (List.range (sl.length + 1)).any (fun i => pl.isPrefixOf (sl.drop i))

/-- Outcome of one call into the fabric SSH layer (`run(command)`), as
seen by `run_command`: a returned output string, a raised exception
carrying a message, or a raised `SystemExit`. -/
inductive ExecResult
  | ok (output : String)
  | exc (msg : String)
  | sysExit (msg : String)
deriving DecidableEq, Repr

/-- The external collaborators `run_command` calls into, as oracles:
`runResult n` is the outcome of the (n+1)-th `run(command)` call, and
`tagExc` is `some msg` when `conn.ex_create_tags` raises an exception
with that message (`none` when it succeeds). -/
structure SshOracle where
  runResult : Nat → ExecResult
  tagExc : Option String

/-- Value returned by `run_command`: either a plain output string or a
pyramid `Response(body, status)`. -/
inductive RunResponse
  | output (s : String)
  | resp (body : String) (status : Nat)
deriving DecidableEq, Repr

/-- Side effects `run_command` performed, in order of occurrence:
the `(env.user, command)` pair of each fabric `run` call, the tags
created on the machine as `(machine_id, key, value)` triples, whether
the private key was written to a temporary file (and what was written),
and whether that file was removed. -/
structure RunTrace where
  sshCalls : List (String × String)
  tags : List (String × String × String)
  keyWritten : Option String
  tmpRemoved : Bool
deriving DecidableEq, Repr

/-- Username parsing of `helpers.py` lines 291-293: `split()[4]` is
evaluated first (an out-of-range index raises `IndexError`), then, when
the output contains the longer fragment, `split()[5]` replaces it.
`none` means the Python code raises `IndexError` here. -/
def parsedUsername (cmd_output : String) : Option String :=
  let toks := pySplit cmd_output
  match toks.get? 4 with
  | none => none
  | some t4 =>
    if strContains cmd_output "Please login as the user " then
      (toks.get? 5).map (fun t5 => pyStrip t5 (Char.ofNat 34))
    else some (pyStrip t4 (Char.ofNat 34))

/-- Embedding of `run_command(conn, machine_id, host, ssh_user,
private_key, command)` (`helpers.py` lines 235-316).  The fabric `run`
calls and `conn.ex_create_tags` are supplied by the oracle; the result
is the returned value together with the trace of side effects.  An
exception anywhere inside the outer `try` (including an `IndexError`
from the username parsing and a failure of `ex_create_tags`) is caught
by `except Exception` and turned into a 503 `Response`; `SystemExit`
(which does not inherit from `Exception`) reaches `except SystemExit`
and becomes a 204 `Response`.  `os.remove(tmp_path)` runs only after
the outer `try` completes without a handled exception. -/
def run_command (oracle : SshOracle) (machine_id host ssh_user
    private_key command : String) : RunResponse × RunTrace :=
  if host = "" then
    (.resp "Host not set" 503, ⟨[], [], none, false⟩)
  else if command = "" then
    (.output "", ⟨[], [], none, false⟩)
  else
    let user0 := if ssh_user ≠ "" then ssh_user else "root"
    match oracle.runResult 0 with
    | .exc e =>
      (.resp ("Exception while executing command: " ++ e) 503,
       ⟨[(user0, command)], [], some private_key, false⟩)
    | .sysExit e =>
      (.resp ("SystemExit: " ++ e) 204,
       ⟨[(user0, command)], [], some private_key, false⟩)
    | .ok out =>
      if strContains out "Please login as the" then
        match parsedUsername out with
        | none =>
          -- IndexError from split()[...] caught by the outer except
          (.resp "Exception while executing command: list index out of range"
             503,
           ⟨[(user0, command)], [], some private_key, false⟩)
        | some username =>
          match oracle.tagExc with
          | some e =>
            (.resp ("Exception while executing command: " ++ e) 503,
             ⟨[(user0, command)], [], some private_key, false⟩)
          | none =>
            let trace0 : RunTrace :=
              ⟨[(user0, command), (username, command)],
               [(machine_id, "ssh_user", username)], some private_key, false⟩
            match oracle.runResult 1 with
            | .ok out2 => (.output out2, { trace0 with tmpRemoved := true })
            | .exc e =>
              (.resp ("Exception while executing command: " ++ e) 503, trace0)
            | .sysExit e => (.resp ("SystemExit: " ++ e) 204, trace0)
      else
        (.output out,
         ⟨[(user0, command)], [], some private_key, true⟩)

/-- Outcome of one provider API call (`ex_import_keypair`,
`ex_create_security_group`, `ex_authorize_security_group_permissive`):
success, or an exception whose `message` attribute is `msg`. -/
inductive CallResult
  | ok
  | err (msg : String)
deriving DecidableEq, Repr

/-- Return value and temp-file effects of `import_key`. -/
structure ImportKeyOutcome where
  result : Bool
  tmpCreated : Bool
  tmpRemoved : Bool
deriving DecidableEq, Repr

/-- Embedding of `import_key(conn, public_key, name)` (`helpers.py`
lines 178-206).  The underlying `ex_import_keypair` call is supplied as
`importResult`.  Only `conn.type` is read from the connection. -/
def import_key (connType : Provider) (importResult : CallResult) :
    ImportKeyOutcome :=
  if EC2_PROVIDERS.contains connType then
    match importResult with
    | .ok => ⟨true, true, true⟩
    | .err m =>
      if strContains m "Duplicate" then ⟨true, true, true⟩
      else ⟨false, true, true⟩
  else ⟨false, false, false⟩

/-- Python truthiness of `info.get(key, None)`: `None` and the empty
string are falsy. -/
def pyTruthy : Option String → Bool
  | none => false
  | some s => s ≠ ""

/-- Return value and backend effects of `create_security_group`:
`groupCreated` records whether `ex_create_security_group` succeeded on
the backend, `ruleApplied` whether the permissive rule call succeeded. -/
structure SecGroupOutcome where
  result : Bool
  groupCreated : Bool
  ruleApplied : Bool
deriving DecidableEq, Repr

/-- Embedding of `create_security_group(conn, info)` (`helpers.py`
lines 209-232).  `name`/`description` are `info.get(...)`; the two
provider calls are supplied as `createResult` and `authResult`.  When
`ex_create_security_group` raises, the authorize call is never made. -/
def create_security_group (connType : Provider)
    (name description : Option String)
    (createResult authResult : CallResult) : SecGroupOutcome :=
  if EC2_PROVIDERS.contains connType ∧ pyTruthy name ∧ pyTruthy description then
    match createResult with
    | .err m =>
      if strContains m "Duplicate" then ⟨true, false, false⟩
      else ⟨false, false, false⟩
    | .ok =>
      match authResult with
      | .ok => ⟨true, true, true⟩
      | .err m =>
        if strContains m "Duplicate" then ⟨true, true, false⟩
        else ⟨false, true, false⟩
  else ⟨false, false, false⟩

/-- One keypair entry of the settings file: the `public` and `private`
key strings (`private` is a Lean keyword, hence `priv`). -/
structure Keypair where
  public : String
  priv : String
deriving DecidableEq, Repr

/-- A backend descriptor as stored in settings and consumed by
`connect` (spec section 3).  `auth_url` and `auth_version` are optional
(`backend.get(...)` in the source); the other keys are accessed with
`backend[...]`. -/
structure BackendRec where
  provider : Provider
  id : String
  secret : String
  region : String
  datacenter : String
  auth_url : Option String
  auth_version : Option String
deriving DecidableEq, Repr

/-- The five settings fields read and written by
`load_settings`/`save_settings`. -/
structure Settings where
  keypairs : List (String × Keypair)
  backends : List BackendRec
  core_uri : String
  js_build : Bool
  js_log_level : Int
deriving DecidableEq, Repr

/-- A parsed YAML document for `settings.yaml`: each of the five keys
may be present or absent (`user_config.get(key, default)` in the
source). -/
structure UserConfig where
  keypairs : Option (List (String × Keypair))
  backends : Option (List BackendRec)
  core_uri : Option String
  js_build : Option Bool
  js_log_level : Option Int
deriving DecidableEq, Repr

/-- State of `settings.yaml` on disk: missing, syntactically malformed
YAML, or a well-formed document (`none` stands for an empty file, for
which `yaml.load` returns `None` and the source substitutes the empty
dict). -/
inductive FileState
  | absent
  | malformed
  | written (doc : Option UserConfig)
deriving DecidableEq, Repr

/-- Field extraction shared by the branches of `load_settings`
(`helpers.py` lines 47-52): each field falls back to its default, and
`core_uri` is taken from the file only when the incoming settings dict
does not already hold one. -/
def settingsFromConfig (uc : UserConfig) (incoming_core_uri : Option String) :
    Settings :=
  ⟨uc.keypairs.getD [],
   uc.backends.getD [],
   (match incoming_core_uri with
    | some c => c
    | none => uc.core_uri.getD "https://mist.io"),
   uc.js_build.getD false,
   uc.js_log_level.getD 3⟩

/-- Embedding of `load_settings(settings)` (`helpers.py` lines 24-52).
The filesystem is the explicit `file` argument; `incoming_core_uri` is
the `core_uri` entry already present in the incoming `settings` dict,
if any (the only incoming entry the source consults).  A missing file
is created empty and then read; malformed YAML re-raises the parse
error.  The result is the updated settings together with the file state
left on disk. -/
def load_settings (file : FileState) (incoming_core_uri : Option String) :
    Except String (Settings × FileState) :=
  match file with
  | .malformed => .error "Error parsing settings.yaml"
  | .absent =>
    .ok (settingsFromConfig ⟨none, none, none, none, none⟩ incoming_core_uri,
         .written none)
  | .written doc =>
    .ok (settingsFromConfig (doc.getD ⟨none, none, none, none, none⟩)
           incoming_core_uri,
         file)

/-- Embedding of `save_settings(settings)` (`helpers.py` lines 55-86).
The `literal_unicode` wrapper only changes the YAML scalar style, not
the stored string, so a keypair is dumped as its `public`/`private`
pair; the five keys are written unconditionally, overwriting the
file. -/
def save_settings (s : Settings) : FileState :=
  .written (some
    ⟨some (s.keypairs.map (fun kv => (kv.1, ⟨kv.2.public, kv.2.priv⟩))),
     some s.backends,
     some s.core_uri,
     some s.js_build,
     some s.js_log_level⟩)

/-- A libcloud driver class as returned by the driver factory; `dtype`
is its `type` class attribute. -/
structure Driver where
  dtype : Provider
deriving DecidableEq, Repr

/-- Modelled from the spec: `libcloud.compute.providers.get_driver` is
an external library call.  Per spec section 4.2 it fails with a lookup
error when the provider enum has no registered driver, and the comment
at `helpers.py` line 125 implies the driver class of an EC2 regional
variant does not carry the exact regional enum (hence the overwrite in
`connect`); the base `ec2` type is used for regional variants here. -/
def get_driver : Provider → Option Driver
  | .unregistered => none
  | .ec2_eu_west => some ⟨.ec2⟩
  | .ec2_us_east => some ⟨.ec2⟩
  | .ec2_us_west => some ⟨.ec2⟩
  | .ec2_ap_southeast => some ⟨.ec2⟩
  | p => some ⟨p⟩

/-- Constructor arguments `connect` passes to the driver, one shape per
dispatch branch of `helpers.py` lines 109-126.  The Linode branch
receives only the secret; the final (EC2) branch receives id and
secret. -/
inductive ConnArgs
  | openstack (id secret : String) (auth_url : Option String)
      (auth_version : String)
  | linode (secret : String)
  | rackspaceFirstGen (id secret region : String)
  | rackspace (id secret datacenter : String)
  | ec2style (id secret : String)
deriving DecidableEq, Repr

/-- A connection handle: the constructor arguments used and the final
`type` attribute. -/
structure Conn where
  args : ConnArgs
  type : Provider
deriving DecidableEq, Repr

/-- Embedding of the dispatch part of `connect(request)` (`helpers.py`
lines 89-127), taking the backend record the source extracts from the
session/settings.  `get_driver` is called before the dispatch, so an
unregistered provider fails regardless of branch; in the final branch
`conn.type` is overwritten with the exact sub-provider enum. -/
def connect (b : BackendRec) : Except String Conn :=
  match get_driver b.provider with
  | none => .error "lookup error: provider has no registered driver"
  | some driver =>
    if b.provider = .openstack then
      .ok ⟨.openstack b.id b.secret b.auth_url (b.auth_version.getD "2.0"),
           driver.dtype⟩
    else if b.provider = .linode then
      .ok ⟨.linode b.secret, driver.dtype⟩
    else if b.provider = .rackspace_first_gen then
      .ok ⟨.rackspaceFirstGen b.id b.secret b.region, driver.dtype⟩
    else if b.provider = .rackspace then
      .ok ⟨.rackspace b.id b.secret b.datacenter, driver.dtype⟩
    else
      .ok ⟨.ec2style b.id b.secret, b.provider⟩

end MistIO

/-- C1: for every (backend_type, machine_state) pair, `get_machine_actions`
returns exactly the capability flags given by the rule table of spec
section 4.2b, so no flag combination outside that matrix is ever
produced. -/
theorem claim_C1 :
    ∀ (backendType : MistIO.Provider) (state : MistIO.NodeState),
      MistIO.get_machine_actions state backendType =
        MistIO.capabilityRuleTable state backendType := by
  intro b s
  cases b <;> cases s <;> rfl

open MistIO

/-- Helper: what `parsedUsername` returns, phrased by token position, as
used in the proof of the C2 theorem. -/
theorem parsedUsername_spec (o1 u : String)
    (hu : parsedUsername o1 = some u) :
    (strContains o1 "Please login as the user " = true →
       ((pySplit o1).get? 5).map (fun t => pyStrip t (Char.ofNat 34)) =
         some u) ∧
    (strContains o1 "Please login as the user " = false →
       ((pySplit o1).get? 4).map (fun t => pyStrip t (Char.ofNat 34)) =
         some u) := by
  unfold parsedUsername at hu
  simp only [List.get?_eq_getElem?] at hu ⊢
  rcases h4 : (pySplit o1)[4]? with _ | t4
  · rw [h4] at hu
    simp at hu
  · rw [h4] at hu
    simp only [] at hu
    by_cases hv : strContains o1 "Please login as the user " = true
    · rw [if_pos hv] at hu
      constructor
      · intro _
        exact hu
      · intro hf
        simp [hv] at hf
    · rw [if_neg hv] at hu
      constructor
      · intro ht
        exact absurd ht hv
      · intro _
        simpa using hu

/-- C2: when the first remote execution returns an output containing
the login-rejection message, `run_command` parses the suggested
username from the fixed token position (index 5 stripped of quotes when
the longer fragment is present, else index 4), tags the machine with it
under key ssh_user, re-runs the command exactly once as that user, and
returns the second output; a second-run exception yields a 503 response
and no further retry. -/
theorem claim_C2 (oracle : SshOracle)
    (machine_id host ssh_user pk command o1 u : String)
    (hh : host ≠ "") (hc : command ≠ "")
    (h0 : oracle.runResult 0 = .ok o1)
    (hmsg : strContains o1 "Please login as the" = true)
    (hu : parsedUsername o1 = some u)
    (htag : oracle.tagExc = none) :
    (run_command oracle machine_id host ssh_user pk command).2.tags =
      [(machine_id, "ssh_user", u)] ∧
    (run_command oracle machine_id host ssh_user pk command).2.sshCalls =
      [((if ssh_user ≠ "" then ssh_user else "root"), command),
       (u, command)] ∧
    (∀ o2, oracle.runResult 1 = .ok o2 →
       (run_command oracle machine_id host ssh_user pk command).1 =
         .output o2) ∧
    (∀ e, oracle.runResult 1 = .exc e →
       (run_command oracle machine_id host ssh_user pk command).1 =
         .resp ("Exception while executing command: " ++ e) 503) ∧
    (strContains o1 "Please login as the user " = true →
       ((pySplit o1).get? 5).map (fun t => pyStrip t (Char.ofNat 34)) =
         some u) ∧
    (strContains o1 "Please login as the user " = false →
       ((pySplit o1).get? 4).map (fun t => pyStrip t (Char.ofNat 34)) =
         some u) := by
  have hparse := parsedUsername_spec o1 u hu
  rcases h1 : oracle.runResult 1 with o2 | e | e <;>
    refine ⟨?_, ?_, ?_, ?_, hparse.1, hparse.2⟩ <;>
    simp [run_command, hh, hc, h0, hmsg, hu, htag, h1]

/-- C2 witness: the spec scenario, with the first run answering the
Amazon Linux rejection message and the second run succeeding. -/
theorem claim_C2_witness :
    (run_command
        ⟨fun n => if n = 0 then
            .ok "Please login as the user \"ec2-user\" rather than the user \"root\"."
          else .ok "linux", none⟩
        "m1" "1.2.3.4" "root" "KEY" "uname").2.tags =
      [("m1", "ssh_user", "ec2-user")] ∧
    (run_command
        ⟨fun n => if n = 0 then
            .ok "Please login as the user \"ec2-user\" rather than the user \"root\"."
          else .ok "linux", none⟩
        "m1" "1.2.3.4" "root" "KEY" "uname").2.sshCalls =
      [("root", "uname"), ("ec2-user", "uname")] ∧
    (run_command
        ⟨fun n => if n = 0 then
            .ok "Please login as the user \"ec2-user\" rather than the user \"root\"."
          else .ok "linux", none⟩
        "m1" "1.2.3.4" "root" "KEY" "uname").1 = .output "linux" := by
  have h := claim_C2
      ⟨fun n => if n = 0 then
          .ok "Please login as the user \"ec2-user\" rather than the user \"root\"."
        else .ok "linux", none⟩
      "m1" "1.2.3.4" "root" "KEY" "uname"
      "Please login as the user \"ec2-user\" rather than the user \"root\"."
      "ec2-user" (by decide) (by decide) rfl (by decide) (by decide) rfl
  exact ⟨h.1, by simpa using h.2.1, h.2.2.1 "linux" rfl⟩

/-- C3: `run_command` with an empty host returns a 503 response and
performs no SSH call and creates no temp file; with a non-empty host
and an empty command it returns the empty string as a success, again
with no SSH call and no temp file. -/
theorem claim_C3 (oracle : SshOracle) (machine_id ssh_user pk : String) :
    (∀ host command, host = "" →
       run_command oracle machine_id host ssh_user pk command =
         (.resp "Host not set" 503, ⟨[], [], none, false⟩)) ∧
    (∀ host command, host ≠ "" → command = "" →
       run_command oracle machine_id host ssh_user pk command =
         (.output "", ⟨[], [], none, false⟩)) := by
  constructor
  · intro host command hh
    simp [run_command, hh]
  · intro host command hh hc
    simp [run_command, hh, hc]

/-- C3 witness: both precondition branches at concrete inputs. -/
theorem claim_C3_witness :
    run_command ⟨fun _ => .ok "x", none⟩ "m1" "" "root" "KEY" "ls" =
      (.resp "Host not set" 503, ⟨[], [], none, false⟩) ∧
    run_command ⟨fun _ => .ok "x", none⟩ "m1" "1.2.3.4" "root" "KEY" "" =
      (.output "", ⟨[], [], none, false⟩) :=
  ⟨(claim_C3 ⟨fun _ => .ok "x", none⟩ "m1" "root" "KEY").1 "" "ls" rfl,
   (claim_C3 ⟨fun _ => .ok "x", none⟩ "m1" "root" "KEY").2 "1.2.3.4" ""
     (by decide) rfl⟩

/-- C4: `run_command` never propagates an exception: every structured
response it returns carries status 503 or 204, an exception from the
first execution yields a 503 response, and a `SystemExit` yields a 204
response. -/
theorem claim_C4 (oracle : SshOracle)
    (machine_id host ssh_user pk command : String) :
    (∀ b s,
       (run_command oracle machine_id host ssh_user pk command).1 =
         .resp b s → s = 503 ∨ s = 204) ∧
    (∀ e, host ≠ "" → command ≠ "" → oracle.runResult 0 = .exc e →
       (run_command oracle machine_id host ssh_user pk command).1 =
         .resp ("Exception while executing command: " ++ e) 503) ∧
    (∀ e, host ≠ "" → command ≠ "" → oracle.runResult 0 = .sysExit e →
       (run_command oracle machine_id host ssh_user pk command).1 =
         .resp ("SystemExit: " ++ e) 204) := by
  refine ⟨?_, ?_, ?_⟩
  · intro b s h
    unfold run_command at h
    by_cases hh : host = "" <;> simp [hh] at h
    · omega
    · by_cases hc : command = "" <;> simp [hc] at h
      rcases h0 : oracle.runResult 0 with o | e | e <;> simp [h0] at h
      · by_cases hm : strContains o "Please login as the" = true <;>
          simp [hm] at h
        rcases hu : parsedUsername o with _ | u <;> simp [hu] at h
        · omega
        · rcases ht : oracle.tagExc with _ | e <;> simp [ht] at h
          · rcases h1 : oracle.runResult 1 with o2 | e | e <;>
              simp [h1] at h <;> omega
          · omega
      · omega
      · omega
  · intro e hh hc h0
    simp [run_command, hh, hc, h0]
  · intro e hh hc h0
    simp [run_command, hh, hc, h0]

/-- C4 witness: a first-run exception maps to 503 and a first-run
`SystemExit` maps to 204 at concrete inputs. -/
theorem claim_C4_witness :
    (run_command ⟨fun _ => .exc "boom", none⟩ "m1" "1.2.3.4" "root" "KEY"
        "ls").1 =
      .resp ("Exception while executing command: " ++ "boom") 503 ∧
    (run_command ⟨fun _ => .sysExit "1", none⟩ "m1" "1.2.3.4" "root" "KEY"
        "ls").1 =
      .resp ("SystemExit: " ++ "1") 204 :=
  ⟨(claim_C4 ⟨fun _ => .exc "boom", none⟩ "m1" "1.2.3.4" "root" "KEY"
      "ls").2.1 "boom" (by decide) (by decide) rfl,
   (claim_C4 ⟨fun _ => .sysExit "1", none⟩ "m1" "1.2.3.4" "root" "KEY"
      "ls").2.2 "1" (by decide) (by decide) rfl⟩

/-- C5: on an EC2-family connection, `import_key` and (with truthy name
and description) `create_security_group` return true on success, true
on a failure whose message contains Duplicate, and false on any other
failure — for `create_security_group` this covers a failure of either
the creation call or the subsequent authorize call. -/
theorem claim_C5 (p : Provider) (hp : EC2_PROVIDERS.contains p = true)
    (name description : Option String)
    (hn : pyTruthy name = true) (hd : pyTruthy description = true) :
    (import_key p .ok).result = true ∧
    (∀ m, strContains m "Duplicate" = true →
       (import_key p (.err m)).result = true) ∧
    (∀ m, strContains m "Duplicate" = false →
       (import_key p (.err m)).result = false) ∧
    (create_security_group p name description .ok .ok).result = true ∧
    (∀ m a, strContains m "Duplicate" = true →
       (create_security_group p name description (.err m) a).result = true) ∧
    (∀ m a, strContains m "Duplicate" = false →
       (create_security_group p name description (.err m) a).result =
         false) ∧
    (∀ m, strContains m "Duplicate" = true →
       (create_security_group p name description .ok (.err m)).result =
         true) ∧
    (∀ m, strContains m "Duplicate" = false →
       (create_security_group p name description .ok (.err m)).result =
         false) := by
  have hp' : p ∈ EC2_PROVIDERS := by simpa using hp
  refine ⟨by simp [import_key, hp'], ?_, ?_,
          by simp [create_security_group, hp', hn, hd], ?_, ?_, ?_, ?_⟩
  · intro m hm
    simp [import_key, hp', hm]
  · intro m hm
    simp [import_key, hp', hm]
  · intro m a hm
    simp [create_security_group, hp', hn, hd, hm]
  · intro m a hm
    simp [create_security_group, hp', hn, hd, hm]
  · intro m hm
    simp [create_security_group, hp', hn, hd, hm]
  · intro m hm
    simp [create_security_group, hp', hn, hd, hm]

/-- C5 witness: duplicate failures count as success and other failures
as false, at concrete inputs on the base EC2 provider. -/
theorem claim_C5_witness :
    (import_key .ec2 (.err "InvalidKeyPair.Duplicate")).result = true ∧
    (import_key .ec2 (.err "AuthFailure")).result = false ∧
    (import_key .ec2 .ok).result = true ∧
    (create_security_group .ec2 (some "grp") (some "desc") .ok
        (.err "InvalidGroup.Duplicate")).result = true ∧
    (create_security_group .ec2 (some "grp") (some "desc")
        (.err "AuthFailure") .ok).result = false := by
  have h := claim_C5 .ec2 (by decide) (some "grp") (some "desc")
    (by decide) (by decide)
  exact ⟨h.2.1 "InvalidKeyPair.Duplicate" (by decide),
         h.2.2.1 "AuthFailure" (by decide),
         h.1,
         h.2.2.2.2.2.2.1 "InvalidGroup.Duplicate" (by decide),
         h.2.2.2.2.2.1 "AuthFailure" .ok (by decide)⟩

/-- Helper: dumping a keypair map as its public/private pairs is the
identity, since a keypair consists of exactly those two strings. -/
theorem keypairs_dump_id (l : List (String × Keypair)) :
    l.map (fun kv => (kv.1, Keypair.mk kv.2.public kv.2.priv)) = l := by
  induction l with
  | nil => rfl
  | cons kv rest ih => simp [ih]

/-- C6: `save_settings` followed by `load_settings` restores keypairs,
backends, core_uri, js_build and js_log_level exactly, whether the load
goes into a fresh settings dict (no incoming core_uri) or into the dict
that was saved (incoming core_uri equal to the saved one). -/
theorem claim_C6 (s : Settings) (incoming : Option String)
    (hinc : incoming = none ∨ incoming = some s.core_uri) :
    load_settings (save_settings s) incoming = .ok (s, save_settings s) := by
  rcases s with ⟨kp, be, cu, jb, jll⟩
  rcases hinc with h | h <;> subst h <;>
    simp [load_settings, save_settings, settingsFromConfig, keypairs_dump_id]

/-- C6 witness: a concrete settings record round-trips. -/
theorem claim_C6_witness :
    load_settings
        (save_settings ⟨[("kp1", ⟨"PUBKEY", "PRIVKEY"⟩)],
          [⟨.linode, "", "abc", "", "", none, none⟩],
          "https://mist.io", false, 3⟩) none =
      .ok (⟨[("kp1", ⟨"PUBKEY", "PRIVKEY"⟩)],
            [⟨.linode, "", "abc", "", "", none, none⟩],
            "https://mist.io", false, 3⟩,
           save_settings ⟨[("kp1", ⟨"PUBKEY", "PRIVKEY"⟩)],
             [⟨.linode, "", "abc", "", "", none, none⟩],
             "https://mist.io", false, 3⟩) :=
  claim_C6 ⟨[("kp1", ⟨"PUBKEY", "PRIVKEY"⟩)],
    [⟨.linode, "", "abc", "", "", none, none⟩],
    "https://mist.io", false, 3⟩ none (Or.inl rfl)

/-- C7: `connect` builds the Linode connection from the secret only,
builds every EC2-variant connection from id and secret and overwrites
its type with the exact sub-provider enum, defaults the OpenStack
auth_version to 2.0 when absent, and fails with a lookup error for a
provider with no registered driver. -/
theorem claim_C7 (b : BackendRec) :
    (b.provider = .linode →
       connect b = .ok ⟨.linode b.secret, .linode⟩) ∧
    (EC2_PROVIDERS.contains b.provider = true →
       connect b = .ok ⟨.ec2style b.id b.secret, b.provider⟩) ∧
    (b.provider = .openstack → b.auth_version = none →
       connect b = .ok ⟨.openstack b.id b.secret b.auth_url "2.0",
         .openstack⟩) ∧
    (b.provider = .unregistered → ∃ e, connect b = .error e) := by
  rcases b with ⟨p, id, secret, region, datacenter, auth_url, auth_version⟩
  refine ⟨?_, ?_, ?_, ?_⟩
  · intro hp
    subst hp
    rfl
  · intro hp
    cases p <;> simp_all [EC2_PROVIDERS] <;> rfl
  · intro hp hv
    subst hp
    subst hv
    rfl
  · intro hp
    subst hp
    exact ⟨"lookup error: provider has no registered driver", rfl⟩

/-- C7 witness: the four dispatch behaviours at concrete backends,
including the spec scenario of Linode with secret abc. -/
theorem claim_C7_witness :
    connect ⟨.linode, "someid", "abc", "", "", none, none⟩ =
      .ok ⟨.linode "abc", .linode⟩ ∧
    connect ⟨.ec2_us_east, "AKIA", "SECRET", "", "", none, none⟩ =
      .ok ⟨.ec2style "AKIA" "SECRET", .ec2_us_east⟩ ∧
    connect ⟨.openstack, "user", "pass", "", "", some "http://keystone",
        none⟩ =
      .ok ⟨.openstack "user" "pass" (some "http://keystone") "2.0",
        .openstack⟩ ∧
    (∃ e, connect ⟨.unregistered, "id", "sec", "", "", none, none⟩ =
       .error e) :=
  ⟨(claim_C7 ⟨.linode, "someid", "abc", "", "", none, none⟩).1 rfl,
   (claim_C7 ⟨.ec2_us_east, "AKIA", "SECRET", "", "", none, none⟩).2.1
     (by decide),
   (claim_C7 ⟨.openstack, "user", "pass", "", "", some "http://keystone",
       none⟩).2.2.1 rfl rfl,
   (claim_C7 ⟨.unregistered, "id", "sec", "", "", none, none⟩).2.2.2 rfl⟩

/-- C8: with non-empty host and command, `run_command` writes the
private key to a temporary file, and that file is removed exactly on
the success paths: whenever a structured response is returned instead
of a plain output, the file is left behind. -/
theorem claim_C8 (oracle : SshOracle)
    (machine_id host ssh_user pk command : String)
    (hh : host ≠ "") (hc : command ≠ "") :
    (run_command oracle machine_id host ssh_user pk command).2.keyWritten =
      some pk ∧
    ((run_command oracle machine_id host ssh_user pk command).2.tmpRemoved =
        true ↔
      ∃ s, (run_command oracle machine_id host ssh_user pk command).1 =
        .output s) := by
  rcases h0 : oracle.runResult 0 with o | e | e
  · by_cases hm : strContains o "Please login as the" = true
    · rcases hu : parsedUsername o with _ | u
      · simp [run_command, hh, hc, h0, hm, hu]
      · rcases ht : oracle.tagExc with _ | e
        · rcases h1 : oracle.runResult 1 with o2 | e | e <;>
            simp [run_command, hh, hc, h0, hm, hu, ht, h1]
        · simp [run_command, hh, hc, h0, hm, hu, ht]
    · simp [run_command, hh, hc, h0, hm]
  · simp [run_command, hh, hc, h0]
  · simp [run_command, hh, hc, h0]

/-- C8 witness: on a failing run the key was written and the temp file
was not removed; the equivalence is instantiated at a concrete
exception oracle. -/
theorem claim_C8_witness :
    (run_command ⟨fun _ => .exc "boom", none⟩ "m1" "1.2.3.4" "root" "KEY"
        "ls").2.keyWritten = some "KEY" ∧
    ((run_command ⟨fun _ => .exc "boom", none⟩ "m1" "1.2.3.4" "root" "KEY"
        "ls").2.tmpRemoved = true ↔
      ∃ s, (run_command ⟨fun _ => .exc "boom", none⟩ "m1" "1.2.3.4" "root"
        "KEY" "ls").1 = .output s) :=
  claim_C8 ⟨fun _ => .exc "boom", none⟩ "m1" "1.2.3.4" "root" "KEY" "ls"
    (by decide) (by decide)

/-- C9: `load_settings` on an absent file creates an empty file and
yields the defaults (core_uri defaulted only when the incoming settings
have none), and on a malformed file propagates the parse error. -/
theorem claim_C9 (incoming : Option String) :
    load_settings .absent incoming =
      .ok (⟨[], [],
            (match incoming with
             | some c => c
             | none => "https://mist.io"), false, 3⟩,
           .written none) ∧
    load_settings .malformed incoming =
      .error "Error parsing settings.yaml" := by
  rcases incoming with _ | c <;> exact ⟨rfl, rfl⟩

/-- C10: `create_security_group` is not atomic: when group creation
succeeds but the authorize call fails with a non-duplicate error, the
function returns false although the group was created on the backend. -/
theorem claim_C10 (p : Provider) (hp : EC2_PROVIDERS.contains p = true)
    (name description : Option String)
    (hn : pyTruthy name = true) (hd : pyTruthy description = true)
    (m : String) (hm : strContains m "Duplicate" = false) :
    (create_security_group p name description .ok (.err m)).result =
      false ∧
    (create_security_group p name description .ok (.err m)).groupCreated =
      true := by
  have hp' : p ∈ EC2_PROVIDERS := by simpa using hp
  simp [create_security_group, hp', hn, hd, hm]

/-- C10 witness: concrete non-duplicate authorize failure on EC2. -/
theorem claim_C10_witness :
    (create_security_group .ec2 (some "grp") (some "desc") .ok
        (.err "RequestLimitExceeded")).result = false ∧
    (create_security_group .ec2 (some "grp") (some "desc") .ok
        (.err "RequestLimitExceeded")).groupCreated = true :=
  claim_C10 .ec2 (by decide) (some "grp") (some "desc") (by decide)
    (by decide) "RequestLimitExceeded" (by decide)
